import Mathlib

/-!
Shallow embedding of the feed watcher core of `tuisky`
(`src/backend/watches/feed.rs`): the reconciliation algorithm
(`update_feeds`), the preference filter (`filter_feed`), the fetch
dispatch (`get_feed`), the recompute (`calculate_feed`) and the publish
step (`update`).  Datatypes follow the `bsky_sdk` / `atrium` types the
source matches on; fields the source never touches are omitted, and the
`Union::Unknown` fallback variant of each open union is kept, since the
source's wildcard match arms range over it.
-/

namespace Tuisky

/-- Model of `Cid`: opaque content-addressed post identifier, compared only for
equality in the source. -/
abbrev Cid := Nat

/-- Model of `ViewerState` (`atrium` `app.bsky.actor.defs`): only the `following`
field is read (`viewer.following.is_some()`); its payload is the
at-uri of the follow record. -/
structure ViewerState where
  following : Option String
deriving DecidableEq, Repr

/-- Model of `ProfileViewBasic`: the author of a post; the source reads `did` and
`viewer`. -/
structure ProfileViewBasic where
  did : String
  viewer : Option ViewerState
deriving DecidableEq, Repr

/-- Model of `PostViewEmbedRefs` wrapped in `Union`: the source only distinguishes
the two quote-record variants from everything else; `unknown` stands for
the `Union::Unknown` fallback. -/
inductive PostViewEmbed where
  | imagesView
  | externalView
  | recordView
  | recordWithMediaView
  | videoView
  | unknown
deriving DecidableEq, Repr

/-- Model of `PostView` (`app.bsky.feed.defs`): the fields the watcher code reads,
plus `uri` standing in for the rest of the payload (record text, counts,
…) so that two posts with one `cid` can differ. -/
structure PostView where
  cid : Cid
  author : ProfileViewBasic
  like_count : Option Int
  embed : Option PostViewEmbed
  uri : String
deriving DecidableEq, Repr

/-- Model of `ReasonRepost`: the repost annotation; `indexed_at` models the
`Datetime` (totally ordered) and `by_did` the resharer. -/
structure ReasonRepost where
  by_did : String
  indexed_at : Nat
deriving DecidableEq, Repr

/-- Model of `Option<Union<FeedViewPostReasonRefs>>` flattened: `reasonRepost`
is `Union::Refs(ReasonRepost(_))`; `unknown` is the `Union::Unknown`
fallback the source's `_` arms cover. -/
inductive FeedViewPostReason where
  | reasonRepost (r : ReasonRepost)
  | unknown
deriving DecidableEq, Repr

/-- Model of `Union<ReplyRefParentRefs>`: the source only pattern-matches the
`PostView` variant; `notFoundPost`, `blockedPost` and the `Union`
fallback are all never a `PostView`. -/
inductive ReplyParent where
  | postView (p : PostView)
  | notFoundPost
  | blockedPost
  | unknown
deriving DecidableEq, Repr

/-- Model of `ReplyRef`: the reply context; only `parent` is read. -/
structure ReplyRef where
  parent : ReplyParent
deriving DecidableEq, Repr

/-- Model of `FeedViewPost`: post payload + optional reason + optional reply
context. -/
structure FeedViewPost where
  post : PostView
  reason : Option FeedViewPostReason
  reply : Option ReplyRef
deriving DecidableEq, Repr

/-- Model of `FeedViewPreference` (`bsky_sdk::preference`): the five display
settings the filter reads. -/
structure FeedViewPreference where
  hide_replies : Bool
  hide_replies_by_unfollowed : Bool
  hide_replies_by_like_count : Int
  hide_reposts : Bool
  hide_quote_posts : Bool
deriving DecidableEq, Repr

/-- Model of `FeedViewPreferenceData::default()` of the external crate (official
app defaults: only `hide_replies_by_unfollowed` is on). -/
def defaultFeedViewPreference : FeedViewPreference :=
  { hide_replies := false
    hide_replies_by_unfollowed := true
    hide_replies_by_like_count := 0
    hide_reposts := false
    hide_quote_posts := false }

/-- Model of `Preferences`: the watcher only reads `feed_view_prefs.get("home")`;
the moderation half only feeds the external moderator construction,
which is an input of `calculate_feed` here. -/
structure Preferences where
  feed_view_prefs : List (String × FeedViewPreference)
deriving DecidableEq, Repr

/-- Model of `FeedDescriptor` (`backend/types.rs`): its three variants are fixed
by the exhaustive match in `get_feed` — a named feed (carrying the
generator's `uri`), a list, or the timeline (carrying its algorithm
string). -/
inductive FeedDescriptor where
  | feed (uri : String)
  | list
  | timeline (s : String)
deriving DecidableEq, Repr

/-- The test `matches!(descriptor, FeedDescriptor::Timeline(_))` guarding
the preference-filter stage. -/
def FeedDescriptor.isTimeline : FeedDescriptor → Bool
  | .timeline _ => true
  | _ => false

/-- The moderation decision engine, abstracted to the one bit the
watcher consumes: `moderate_post(post).ui(ContentList).filter()`. -/
abbrev Moderator := PostView → Bool

/-- Errors surfaced by the agent (network / moderator construction);
opaque here. -/
abbrev FetchError := String

/-! ### IndexMap<Cid, FeedViewPost> — the ordered, deduplicated cache

Modelled as a list of key/value entries in insertion order, with the
exact `indexmap` semantics of the three operations the source uses:
`get_mut` (first entry with the key), `swap_remove` (the last entry is
swapped into the removed slot) and `insert` (replace in place when the
key is present, else append at the tail). -/

abbrev FeedMap := List (Cid × FeedViewPost)

/-- Model of `IndexMap::get`: the entry with key `k`, if present. -/
def FeedMap.lookup (m : FeedMap) (k : Cid) : Option FeedViewPost :=
  (m.find? (fun e => e.1 == k)).map (·.2)

/-- Model of `IndexMap::swap_remove(k)`: remove the entry with key `k` by
swapping the map's last entry into its slot (a no-op when `k` is
absent). -/
def FeedMap.swapRemove (m : FeedMap) (k : Cid) : FeedMap :=
  match m.findIdx? (fun e => e.1 == k) with
  | none => m
  | some i =>
    match m.getLast? with
    | none => m
    | some last => m.dropLast.set i last

/-- Model of `IndexMap::insert(k, v)`: replace the value in place when `k` is
present (keeping its position), else append `(k, v)` at the tail. -/
def FeedMap.insert (m : FeedMap) (k : Cid) (v : FeedViewPost) : FeedMap :=
  if m.any (fun e => e.1 == k) then
    m.map (fun e => if e.1 == k then (e.1, v) else e)
  else
    m ++ [(k, v)]

/-- The in-place payload update `entry.post = post.post.clone()` through
`get_mut`: rewrite the first entry with key `k`. -/
def FeedMap.setPost : FeedMap → Cid → PostView → FeedMap
  | [], _, _ => []
  | e :: rest, k, p =>
    if e.1 == k then (e.1, { e.2 with post := p }) :: rest
    else e :: FeedMap.setPost rest k p

/-! ### Reconciliation: `update_feeds` -/

/-- The promotion test of `update_feeds` (the `match (&entry.reason,
&post.reason)` expression): true when both reasons are reposts and the
incoming one is strictly newer, or when the entry has no reason and the
incoming post has one. -/
def promotes (entry post : FeedViewPost) : Bool :=
  match entry.reason, post.reason with
  | some (.reasonRepost curr), some (.reasonRepost next) =>
    curr.indexed_at < next.indexed_at
  | none, some _ => true
  | _, _ => false

/-- One iteration of the `for post in feed` loop of `update_feeds`. -/
def updateFeedsStep (feed_map : FeedMap) (post : FeedViewPost) : FeedMap :=
  match feed_map.lookup post.post.cid with
  | some entry =>
    if promotes entry post then
      (feed_map.swapRemove post.post.cid).insert post.post.cid post
    else
      feed_map.setPost post.post.cid post.post
  | none => feed_map.insert post.post.cid post

/-- Model of `update_feeds(feed, feed_map)`: merge the fetched page (in the
given order) into the cache. -/
def update_feeds (feed : List FeedViewPost) (feed_map : FeedMap) : FeedMap :=
  feed.foldl updateFeedsStep feed_map

/-! ### Preference filter: `filter_feed` -/

/-- The `is_self_reply` binding of `filter_feed`: the reply's parent is
a `PostView` authored by the reply's own author. -/
def isSelfReply (feed_view_post : FeedViewPost) (reply : ReplyRef) : Bool :=
  match reply.parent with
  | .postView post_view => post_view.author.did == feed_view_post.post.author.did
  | _ => false

/-- The followed-parent test of `filter_feed`: the parent is a
`PostView` whose author's viewer state has `following` set. -/
def parentFollowed (reply : ReplyRef) : Bool :=
  match reply.parent with
  | .postView parent =>
    (parent.author.viewer.map (fun viewer => viewer.following.isSome)).getD false
  | _ => false

/-- Whether the item's reason is a repost (the first `matches!` of
`filter_feed`). -/
def isRepostReason (feed_view_post : FeedViewPost) : Bool :=
  match feed_view_post.reason with
  | some (.reasonRepost _) => true
  | _ => false

/-- Whether the post embeds a quoted record (the quote-post `matches!`
of `filter_feed`). -/
def isQuoteEmbed (feed_view_post : FeedViewPost) : Bool :=
  match feed_view_post.post.embed with
  | some .recordView => true
  | some .recordWithMediaView => true
  | _ => false

/-- Model of `filter_feed(feed_view_post, pref)`: the preference-based keep/drop
decision, `true` = keep. -/
def filter_feed (feed_view_post : FeedViewPost) (pref : FeedViewPreference) : Bool :=
  if isRepostReason feed_view_post then
    !pref.hide_reposts
  else
    match feed_view_post.reply with
    | some reply =>
      let is_self_reply := isSelfReply feed_view_post reply
      if pref.hide_replies then is_self_reply
      else if (feed_view_post.post.like_count.getD 0) < pref.hide_replies_by_like_count then
        is_self_reply
      else if pref.hide_replies_by_unfollowed then parentFollowed reply
      else true
    | none =>
      if isQuoteEmbed feed_view_post then !pref.hide_quote_posts
      else true

/-! ### Fetch, recompute, publish -/

/-- The remote endpoints `get_feed` consults, abstracted as oracles; the
`Nat` argument is the page-size limit. -/
structure Remote where
  getFeedPage : String → Nat → Except FetchError (List FeedViewPost)
  getTimeline : Nat → Except FetchError (List FeedViewPost)

/-- Model of `get_feed(agent, descriptor)`: fetch the latest page — the remote
generator for a named feed, the timeline endpoint for the timeline, and
`Vec::new()` (no remote call) for a list. -/
def get_feed (remote : Remote) (descriptor : FeedDescriptor) :
    Except FetchError (List FeedViewPost) :=
  match descriptor with
  | .feed uri => remote.getFeedPage uri 30
  | .list => .ok []
  | .timeline _ => remote.getTimeline 30

/-- The `"home"` feed-view preference used by `calculate_feed`, falling
back to the crate default. -/
def homePref (preferences : Preferences) : FeedViewPreference :=
  match (preferences.feed_view_prefs.find? (fun e => e.1 == "home")).map (·.2) with
  | some pref => pref
  | none => defaultFeedViewPreference

/-- Model of `calculate_feed`: join moderator construction and fetch (either
error aborts before the cache is touched), reverse the page, merge it
into the cache, snapshot the cache newest-first, drop
moderation-filtered items, and — for the timeline descriptor only —
drop preference-filtered items.  Returns the new cache and the vector
to publish. -/
def calculate_feed (moderatorRes : Except FetchError Moderator)
    (fetchRes : Except FetchError (List FeedViewPost))
    (descriptor : FeedDescriptor) (preferences : Preferences)
    (current : FeedMap) :
    Except FetchError (FeedMap × List FeedViewPost) := do
  let moderator ← moderatorRes
  let feed ← fetchRes
  let feed := feed.reverse
  let feed_map := update_feeds feed current
  let ret := (feed_map.map (·.2)).reverse
  let ret := ret.filter (fun feed_view_post => !(moderator feed_view_post.post))
  let ret :=
    if descriptor.isTimeline then
      ret.filter (fun feed_view_post => filter_feed feed_view_post (homePref preferences))
    else ret
  pure (feed_map, ret)

/-- The watcher's mutable state: the cache behind the mutex and the
value last sent on the watch channel. -/
structure WatcherState where
  current : FeedMap
  published : List FeedViewPost
deriving DecidableEq, Repr

/-- Model of `update`: run `calculate_feed`; publish on success, only log on
error (state untouched). -/
def update (moderatorRes : Except FetchError Moderator)
    (fetchRes : Except FetchError (List FeedViewPost))
    (descriptor : FeedDescriptor) (preferences : Preferences)
    (st : WatcherState) : WatcherState :=
  match calculate_feed moderatorRes fetchRes descriptor preferences st.current with
  | .ok (feed_map, feed) => { current := feed_map, published := feed }
  | .error _ => st

/-! ### Concrete fixtures (mirroring the repository's unit test) -/

/-- Fixture author shared by the concrete scenarios, mirroring the unit
test's profile. -/
def testAuthor : ProfileViewBasic := { did := "did:fake:post.test", viewer := none }

/-- Fixture feed item with the given cid and, optionally, a repost
reason stamped with the given timestamp. -/
def testPost (c : Cid) (t : Option Nat) : FeedViewPost :=
  { post := { cid := c, author := testAuthor, like_count := none, embed := none, uri := "" }
    reason := t.map (fun ts => .reasonRepost { by_did := "did:fake:post.test", indexed_at := ts })
    reply := none }

/-- Fixture cache entry for `testPost`. -/
def testEntry (c : Cid) (t : Option Nat) : Cid × FeedViewPost := (c, testPost c t)

/-- Three-entry cache [C0, C1, C2] of the spec's scenarios. -/
def cache3 : FeedMap := [testEntry 0 none, testEntry 1 none, testEntry 2 none]

/-- Four-entry cache [C0, C1, C2, C3]. -/
def cache4 : FeedMap :=
  [testEntry 0 none, testEntry 1 none, testEntry 2 none, testEntry 3 none]

/-- Fixture item whose reason is the union's unrecognized fallback
(`Union::Unknown`), not a repost. -/
def unknownReasonPost : FeedViewPost :=
  { post := { cid := 1, author := testAuthor, like_count := none, embed := none, uri := "" }
    reason := some .unknown
    reply := none }

/-- The promotion condition in the words of the specification: both
reasons are reposts with the incoming one strictly newer, or the entry
has no reason and the incoming item has a Repost reason.  Stated for
comparison with `promotes`, which is translated from the code. -/
def specPromotes (entry post : FeedViewPost) : Bool :=
  (match entry.reason, post.reason with
   | some (.reasonRepost curr), some (.reasonRepost next) =>
     curr.indexed_at < next.indexed_at
   | _, _ => false)
  || (entry.reason.isNone && isRepostReason post)

/-! ### Helper lemmas about the cache operations -/

theorem promotes_self_false (p : FeedViewPost) : promotes p p = false := by
  obtain ⟨ppost, preason, preply⟩ := p
  cases preason with
  | none => rfl
  | some r =>
    cases r with
    | reasonRepost rr => simp [promotes]
    | unknown => rfl

theorem setPost_lookup_self (m : FeedMap) (k : Cid) (v : FeedViewPost)
    (hlk : m.lookup k = some v) : m.setPost k v.post = m := by
  induction m with
  | nil => simp [FeedMap.lookup] at hlk
  | cons e rest ih =>
    by_cases hek : (e.1 == k) = true
    · have hv : v = e.2 := by
        unfold FeedMap.lookup at hlk
        rw [List.find?_cons, hek] at hlk
        exact (Option.some.inj hlk).symm
      subst hv
      simp [FeedMap.setPost, hek]
    · have hbe : (e.1 == k) = false := by
        simpa using hek
      have hlk' : FeedMap.lookup rest k = some v := by
        unfold FeedMap.lookup at hlk ⊢
        rwa [List.find?_cons, hbe] at hlk
      simp only [FeedMap.setPost, hbe, Bool.false_eq_true, if_false]
      rw [ih hlk']

theorem setPost_keys_ne_id (m : FeedMap) (k : Cid) (p : PostView)
    (h : ∀ x ∈ m, (x.1 == k) = false) :
    m.map (fun e => if e.1 == k then (e.1, { e.2 with post := p }) else e) = m := by
  induction m with
  | nil => rfl
  | cons x xs ih =>
    simp only [List.map_cons, h x (by simp), Bool.false_eq_true, if_false]
    rw [ih (fun y hy => h y (by simp [hy]))]

theorem setPost_eq_map (m : FeedMap) (k : Cid) (p : PostView)
    (hnd : (m.map Prod.fst).Nodup) :
    m.setPost k p
      = m.map (fun e => if e.1 == k then (e.1, { e.2 with post := p }) else e) := by
  induction m with
  | nil => rfl
  | cons e rest ih =>
    rw [List.map_cons, List.nodup_cons] at hnd
    by_cases hek : (e.1 == k) = true
    · have hrest : ∀ x ∈ rest, (x.1 == k) = false := by
        intro x hx
        by_contra hxk
        have hxk' : x.1 = k := by
          simpa using (Bool.not_eq_false _).mp hxk
        have hek' : e.1 = k := by simpa using hek
        exact hnd.1 (by rw [hek', ← hxk']; exact List.mem_map_of_mem Prod.fst hx)
      simp only [FeedMap.setPost, hek, if_true, List.map_cons]
      rw [setPost_keys_ne_id rest k p hrest]
    · have hbe : (e.1 == k) = false := by simpa using hek
      simp only [FeedMap.setPost, hbe, Bool.false_eq_true, if_false, List.map_cons]
      rw [ih hnd.2]

theorem keys_getElem_ne (m : FeedMap) (hnd : (m.map Prod.fst).Nodup)
    {i j : Nat} (hi : i < m.length) (hj : j < m.length) (hij : i ≠ j) :
    (m[i]).1 ≠ (m[j]).1 := by
  intro h
  have hi' : i < (m.map Prod.fst).length := by simpa using hi
  have hj' : j < (m.map Prod.fst).length := by simpa using hj
  have hmap : (m.map Prod.fst)[i] = (m.map Prod.fst)[j] := by
    simpa using h
  exact hij ((List.Nodup.getElem_inj_iff hnd).mp hmap)

theorem swapRemove_keys_ne (m : FeedMap) (k : Cid)
    (hnd : (m.map Prod.fst).Nodup) :
    ∀ e ∈ m.swapRemove k, (e.1 == k) = false := by
  intro e he
  unfold FeedMap.swapRemove at he
  cases hfind : m.findIdx? (fun x => x.1 == k) with
  | none =>
    rw [hfind] at he
    exact Bool.not_eq_true _ ▸ (List.findIdx?_eq_none_iff.mp hfind e he)
  | some i =>
    rw [hfind] at he
    obtain ⟨hi, hpi, -⟩ := List.findIdx?_eq_some_iff_getElem.mp hfind
    have hik : (m[i]).1 = k := by simpa using hpi
    have hne : m ≠ [] := by
      intro hnil
      subst hnil
      simp at hi
    cases hlast : m.getLast? with
    | none => exact absurd (List.getLast?_eq_none_iff.mp hlast) hne
    | some last =>
      rw [hlast] at he
      have hlen : 0 < m.length := List.length_pos.mpr hne
      have hl1 : m.length - 1 < m.length := by omega
      have hlast_eq : last = m[m.length - 1] := by
        rw [List.getLast?_eq_getElem?, List.getElem?_eq_getElem hl1] at hlast
        exact (Option.some.inj hlast).symm
      rw [List.mem_iff_getElem] at he
      obtain ⟨j, hjlen, hje⟩ := he
      have hj' : j < m.length - 1 := by
        simpa using hjlen
      have hjm : j < m.length := by omega
      rw [List.getElem_set] at hje
      by_cases hij : i = j
      · subst hij
        rw [if_pos rfl] at hje
        have hne1 : m.length - 1 ≠ i := by omega
        have hkey := keys_getElem_ne m hnd hl1 hi hne1
        rw [hik] at hkey
        rw [← hje, hlast_eq]
        exact beq_eq_false_iff_ne.mpr hkey
      · rw [if_neg hij] at hje
        rw [List.getElem_dropLast] at hje
        have hkey := keys_getElem_ne m hnd hjm hi (fun h => hij h.symm)
        rw [hik] at hkey
        rw [← hje]
        exact beq_eq_false_iff_ne.mpr hkey

theorem insert_of_keys_ne (m : FeedMap) (k : Cid) (v : FeedViewPost)
    (h : ∀ e ∈ m, (e.1 == k) = false) :
    m.insert k v = m ++ [(k, v)] := by
  unfold FeedMap.insert
  rw [if_neg]
  intro hany
  obtain ⟨x, hx, hxk⟩ := List.any_eq_true.mp hany
  rw [h x hx] at hxk
  exact Bool.false_ne_true hxk

/-- Fixture: a payload-only update for key 1 (new uri, no reason). -/
def updatedPost1 : FeedViewPost :=
  { post := { cid := 1, author := testAuthor, like_count := none, embed := none,
              uri := "updated" }
    reason := none
    reply := none }

/-- Fixture: a parent author distinct from testAuthor, not followed by
the viewer. -/
def parentAuthor : ProfileViewBasic :=
  { did := "did:fake:parent.test", viewer := some { following := none } }

/-- Fixture: the parent post of the reply scenarios. -/
def parentPost : PostView :=
  { cid := 9, author := parentAuthor, like_count := some 3, embed := none, uri := "p" }

/-- Fixture: the reply context pointing at `parentPost`. -/
def replyToParent : ReplyRef := { parent := .postView parentPost }

/-- Fixture: a reply by testAuthor to `parentPost` with like count 2. -/
def replyPost : FeedViewPost :=
  { post := { cid := 5, author := testAuthor, like_count := some 2, embed := none,
              uri := "r" }
    reason := none
    reply := some replyToParent }

/-- Fixture: a reply by testAuthor to `parentPost` with absent like
count. -/
def noLikesReply : FeedViewPost :=
  { post := { cid := 6, author := testAuthor, like_count := none, embed := none,
              uri := "r2" }
    reason := none
    reply := some replyToParent }

/-- Fixture preference: hide replies on, everything else off. -/
def hideRepliesPref : FeedViewPreference :=
  { hide_replies := true, hide_replies_by_unfollowed := false,
    hide_replies_by_like_count := 0, hide_reposts := false,
    hide_quote_posts := false }

/-- Fixture preference: hide replies off, like-count threshold 5. -/
def lowLikePref : FeedViewPreference :=
  { hide_replies := false, hide_replies_by_unfollowed := false,
    hide_replies_by_like_count := 5, hide_reposts := false,
    hide_quote_posts := false }

/-- Shared unfolding equation: `calculate_feed` on successful inputs
merges the reversed page and publishes the filtered snapshot. -/
theorem calculate_feed_ok_eq (moderator : Moderator) (fetched : List FeedViewPost)
    (descriptor : FeedDescriptor) (preferences : Preferences) (current : FeedMap) :
    calculate_feed (.ok moderator) (.ok fetched) descriptor preferences current
      = .ok (update_feeds fetched.reverse current,
          if descriptor.isTimeline then
            (((update_feeds fetched.reverse current).map (·.2)).reverse.filter
                (fun v => !(moderator v.post))).filter
              (fun v => filter_feed v (homePref preferences))
          else
            ((update_feeds fetched.reverse current).map (·.2)).reverse.filter
              (fun v => !(moderator v.post))) := rfl

/-! ### Claim theorems -/

/-- Claim C1 counterexample: starting from the cache [C0, C1, C2, C3]
and merging [C1 with a Repost reason], the code promotes C1 via
swap-removal, which moves the tail entry C3 into C1's slot: the result
is [C0, C3, C2, C1], not the order-preserving [C0, C2, C3, C1] the
claim requires. -/
theorem update_feeds_swap_remove_order_counterexample :
    update_feeds [testPost 1 (some 5)] cache4
      = [testEntry 0 none, testEntry 3 none, testEntry 2 none,
         (1, testPost 1 (some 5))]
  ∧ update_feeds [testPost 1 (some 5)] cache4
      ≠ [testEntry 0 none, testEntry 2 none, testEntry 3 none,
         (1, testPost 1 (some 5))] := by
  decide

/-- Claim C1 (amended): when the incoming item's key exists and triggers
promotion, the reconciliation removes the existing entry by the index
map's swap-removal — the cache's tail entry moves into the vacated
slot — and then inserts the incoming item at the cache's tail; the
relative order of the other entries is hence preserved only when at
most one entry follows the existing one, which covers the spec's
three-entry example [C0, C1, C2] merged with [C1-with-Repost, C2]. -/
theorem update_feeds_promote_swap_remove (m : FeedMap) (post entry : FeedViewPost)
    (hnd : (m.map Prod.fst).Nodup)
    (hlk : m.lookup post.post.cid = some entry)
    (hpr : promotes entry post = true) :
    update_feeds [post] m
      = m.swapRemove post.post.cid ++ [(post.post.cid, post)] := by
  show updateFeedsStep m post = _
  unfold updateFeedsStep
  rw [hlk]
  simp only [hpr, if_true]
  exact insert_of_keys_ne _ _ _ (swapRemove_keys_ne m _ hnd)

/-- Claim C1 witness: the amended theorem applied at the spec's
three-entry example, where the promoted C1 lands at the tail. -/
theorem update_feeds_promote_swap_remove_witness :
    (cache3.map Prod.fst).Nodup
  ∧ cache3.lookup (testPost 1 (some 5)).post.cid = some (testPost 1 none)
  ∧ promotes (testPost 1 none) (testPost 1 (some 5)) = true
  ∧ update_feeds [testPost 1 (some 5)] cache3
      = cache3.swapRemove 1 ++ [(1, testPost 1 (some 5))] :=
  ⟨by decide, by decide, by decide,
    update_feeds_promote_swap_remove cache3 (testPost 1 (some 5)) (testPost 1 none)
      (by decide) (by decide) (by decide)⟩

/-- Claim C6: re-merging an item whose key exists and which does not
trigger promotion replaces only that entry's post payload in place: the
cache equals the pointwise payload rewrite at that key, its size is
unchanged, every entry's key and reason (hence its position) is
unchanged, and every entry under a different key is unchanged. -/
theorem update_feeds_payload_in_place (m : FeedMap) (post entry : FeedViewPost)
    (hnd : (m.map Prod.fst).Nodup)
    (hlk : m.lookup post.post.cid = some entry)
    (hpr : promotes entry post = false) :
    update_feeds [post] m
      = m.map (fun e =>
          if e.1 == post.post.cid then (e.1, { e.2 with post := post.post }) else e)
  ∧ (update_feeds [post] m).length = m.length
  ∧ (update_feeds [post] m).map (fun e => (e.1, e.2.reason))
      = m.map (fun e => (e.1, e.2.reason))
  ∧ ∀ e ∈ m, (e.1 == post.post.cid) = false → e ∈ update_feeds [post] m := by
  have hstep : update_feeds [post] m = m.setPost post.post.cid post.post := by
    show updateFeedsStep m post = _
    unfold updateFeedsStep
    rw [hlk]
    simp only [hpr, Bool.false_eq_true, if_false]
  have hmap := setPost_eq_map m post.post.cid post.post hnd
  refine ⟨hstep.trans hmap, ?_, ?_, ?_⟩
  · rw [hstep, hmap, List.length_map]
  · rw [hstep, hmap, List.map_map]
    apply List.map_congr_left
    intro e he
    by_cases hek : (e.1 == post.post.cid) = true
    · simp [Function.comp, hek]
    · have hbe : (e.1 == post.post.cid) = false := by simpa using hek
      simp [Function.comp, hbe]
  · intro e he hke
    rw [hstep, hmap]
    have hfe : (fun e =>
        if e.1 == post.post.cid then (e.1, { e.2 with post := post.post }) else e) e
          = e := by
      simp [hke]
    exact hfe ▸ List.mem_map_of_mem _ he

/-- Claim C6 witness: a payload-only update of C1 in the three-entry
cache, applied through the theorem. -/
theorem update_feeds_payload_in_place_witness :
    (cache3.map Prod.fst).Nodup
  ∧ cache3.lookup updatedPost1.post.cid = some (testPost 1 none)
  ∧ promotes (testPost 1 none) updatedPost1 = false
  ∧ update_feeds [updatedPost1] cache3
      = cache3.map (fun e =>
          if e.1 == updatedPost1.post.cid
          then (e.1, { e.2 with post := updatedPost1.post }) else e) :=
  ⟨by decide, by decide, by decide,
    (update_feeds_payload_in_place cache3 updatedPost1 (testPost 1 none)
      (by decide) (by decide) (by decide)).1⟩

/-- Claim C7: merging a page containing only items already present in
the cache with identical payload and reason leaves the cache exactly
unchanged — size and ordering included — and the empty page is covered
vacuously. -/
theorem update_feeds_idempotent (page : List FeedViewPost) (m : FeedMap)
    (h : ∀ p ∈ page, m.lookup p.post.cid = some p) :
    update_feeds page m = m := by
  induction page with
  | nil => rfl
  | cons p rest ih =>
    have h1 : m.lookup p.post.cid = some p := h p (by simp)
    have hstep : updateFeedsStep m p = m := by
      unfold updateFeedsStep
      rw [h1]
      simp only [promotes_self_false, Bool.false_eq_true, if_false]
      exact setPost_lookup_self m p.post.cid p h1
    show List.foldl updateFeedsStep m (p :: rest) = m
    rw [List.foldl_cons, hstep]
    exact ih (fun q hq => h q (by simp [hq]))

/-- Claim C7 witness: re-merging [C0] into the cache [C0] leaves it
unchanged, via the theorem. -/
theorem update_feeds_idempotent_witness :
    (∀ p ∈ [testPost 0 none],
        FeedMap.lookup [testEntry 0 none] p.post.cid = some p)
  ∧ update_feeds [testPost 0 none] [testEntry 0 none] = [testEntry 0 none] :=
  ⟨by decide,
    update_feeds_idempotent [testPost 0 none] [testEntry 0 none] (by decide)⟩

/-- Claim C2 counterexample: an entry with no reason, re-merged with an
item carrying an unrecognized (non-Repost) union reason, is promoted by
the code — its arm matches any incoming reason — although the claim's
condition demands a Repost reason; merging it into [C0, C1, C2] indeed
moves C1 to the tail. -/
theorem promotes_nonrepost_reason_counterexample :
    promotes (testPost 1 none) unknownReasonPost = true
  ∧ specPromotes (testPost 1 none) unknownReasonPost = false
  ∧ update_feeds [unknownReasonPost] cache3
      = [testEntry 0 none, testEntry 2 none, (1, unknownReasonPost)] := by
  decide

/-- Claim C2 (amended): promotion occurs if and only if either both the
entry and the incoming item carry a Repost reason with the incoming
timestamp strictly later, or the entry has no reason and the incoming
item carries any reason (a Repost or an unrecognized one); in
particular re-merging with an older-or-equal repost timestamp or with
no reason does not promote. -/
theorem promotes_iff (entry post : FeedViewPost) :
    promotes entry post = true ↔
      ((∃ curr next, entry.reason = some (.reasonRepost curr)
          ∧ post.reason = some (.reasonRepost next)
          ∧ curr.indexed_at < next.indexed_at)
        ∨ (entry.reason = none ∧ post.reason ≠ none)) := by
  obtain ⟨epost, ereason, ereply⟩ := entry
  obtain ⟨ppost, preason, preply⟩ := post
  simp only [promotes]
  cases ereason with
  | none =>
    cases preason with
    | none => simp
    | some r => simp
  | some r =>
    cases r with
    | reasonRepost rr =>
      cases preason with
      | none => simp
      | some r2 =>
        cases r2 with
        | reasonRepost rr2 => simp
        | unknown => simp
    | unknown =>
      cases preason with
      | none => simp
      | some r2 =>
        cases r2 with
        | reasonRepost rr2 => simp
        | unknown => simp

/-- Claim C3: for a reply item reaching the preference filter's reply
classification (its reason is not a repost and it has a reply context),
the decision short-circuits in order: with hide-replies on it is kept
iff it is a self-reply; else with its like count below the threshold it
is kept iff it is a self-reply; else with hide-replies-by-unfollowed on
it is kept iff the parent's author is followed by the viewer; else it
is kept. -/
theorem filter_feed_reply_chain (post : FeedViewPost) (pref : FeedViewPreference)
    (reply : ReplyRef)
    (hr : isRepostReason post = false) (hrep : post.reply = some reply) :
    (pref.hide_replies = true →
      filter_feed post pref = isSelfReply post reply)
  ∧ (pref.hide_replies = false →
      post.post.like_count.getD 0 < pref.hide_replies_by_like_count →
      filter_feed post pref = isSelfReply post reply)
  ∧ (pref.hide_replies = false →
      ¬(post.post.like_count.getD 0 < pref.hide_replies_by_like_count) →
      pref.hide_replies_by_unfollowed = true →
      filter_feed post pref = parentFollowed reply)
  ∧ (pref.hide_replies = false →
      ¬(post.post.like_count.getD 0 < pref.hide_replies_by_like_count) →
      pref.hide_replies_by_unfollowed = false →
      filter_feed post pref = true) := by
  refine ⟨?_, ?_, ?_, ?_⟩
  · intro h1
    simp [filter_feed, hr, hrep, h1]
  · intro h1 h2
    simp [filter_feed, hr, hrep, h1, h2]
  · intro h1 h2 h3
    simp [filter_feed, hr, hrep, h1, h2, h3]
  · intro h1 h2 h3
    simp [filter_feed, hr, hrep, h1, h2, h3]

/-- Claim C3 witness: with hide-replies on, the non-self reply
`replyPost` is decided by the self-reply test (and dropped). -/
theorem filter_feed_reply_chain_witness :
    isRepostReason replyPost = false
  ∧ replyPost.reply = some replyToParent
  ∧ hideRepliesPref.hide_replies = true
  ∧ filter_feed replyPost hideRepliesPref = isSelfReply replyPost replyToParent :=
  ⟨by decide, by decide, by decide,
    (filter_feed_reply_chain replyPost hideRepliesPref replyToParent
      (by decide) (by decide)).1 (by decide)⟩

/-- Claim C10: a reply whose like count is absent is treated as having
like count 0, so with hide-replies off and a positive threshold the
below-threshold branch applies and it is kept iff it is a
self-reply. -/
theorem filter_feed_absent_like_count (post : FeedViewPost) (pref : FeedViewPreference)
    (reply : ReplyRef)
    (hr : isRepostReason post = false) (hrep : post.reply = some reply)
    (hlc : post.post.like_count = none)
    (hhr : pref.hide_replies = false)
    (hpos : 0 < pref.hide_replies_by_like_count) :
    post.post.like_count.getD 0 = 0
  ∧ filter_feed post pref = isSelfReply post reply := by
  refine ⟨by simp [hlc], ?_⟩
  have h2 : post.post.like_count.getD 0 < pref.hide_replies_by_like_count := by
    rw [hlc]
    simpa using hpos
  simp [filter_feed, hr, hrep, hhr, h2]

/-- Claim C10 witness: the like-count-less reply `noLikesReply` under a
positive threshold, via the theorem. -/
theorem filter_feed_absent_like_count_witness :
    isRepostReason noLikesReply = false
  ∧ noLikesReply.reply = some replyToParent
  ∧ noLikesReply.post.like_count = none
  ∧ lowLikePref.hide_replies = false
  ∧ 0 < lowLikePref.hide_replies_by_like_count
  ∧ filter_feed noLikesReply lowLikePref = isSelfReply noLikesReply replyToParent :=
  ⟨by decide, by decide, by decide, by decide, by decide,
    (filter_feed_absent_like_count noLikesReply lowLikePref replyToParent
      (by decide) (by decide) (by decide) (by decide) (by decide)).2⟩

/-- Claim C4: when the moderator construction or the remote fetch
returns an error, the recompute publishes nothing and leaves both the
cache and the previously published value completely unchanged. -/
theorem update_error_leaves_state (moderatorRes : Except FetchError Moderator)
    (fetchRes : Except FetchError (List FeedViewPost))
    (descriptor : FeedDescriptor) (preferences : Preferences) (st : WatcherState)
    (h : (∃ e, moderatorRes = .error e) ∨ (∃ e, fetchRes = .error e)) :
    update moderatorRes fetchRes descriptor preferences st = st := by
  rcases h with ⟨e, he⟩ | ⟨e, he⟩
  · subst he
    rfl
  · subst he
    cases moderatorRes with
    | ok m => rfl
    | error e2 => rfl

/-- Claim C4 witness: a failed fetch leaves a nonempty watcher state
intact. -/
theorem update_error_leaves_state_witness :
    update (.ok (fun _ => false)) (.error "network") .list ⟨[]⟩
        ⟨cache3, [testPost 0 none]⟩
      = ⟨cache3, [testPost 0 none]⟩ :=
  update_error_leaves_state _ _ _ _ _ (.inr ⟨"network", rfl⟩)

/-- Claim C5: on a successful recompute the preference-filter stage is
applied to the moderation-filtered snapshot if and only if the
descriptor is the primary timeline; for named-feed and list descriptors
the moderation-filtered snapshot is published with no preference
filtering. -/
theorem calculate_feed_pref_scoping (moderator : Moderator)
    (fetched : List FeedViewPost) (descriptor : FeedDescriptor)
    (preferences : Preferences) (current : FeedMap) :
    calculate_feed (.ok moderator) (.ok fetched) descriptor preferences current
      = .ok (update_feeds fetched.reverse current,
          if descriptor.isTimeline then
            (((update_feeds fetched.reverse current).map (·.2)).reverse.filter
                (fun v => !(moderator v.post))).filter
              (fun v => filter_feed v (homePref preferences))
          else
            ((update_feeds fetched.reverse current).map (·.2)).reverse.filter
              (fun v => !(moderator v.post)))
  ∧ (descriptor.isTimeline = true ↔ ∃ s, descriptor = .timeline s) := by
  constructor
  · rfl
  · cases descriptor <;> simp [FeedDescriptor.isTimeline]

/-- Claim C8: a successful recompute stores the merged cache and
publishes exactly the cache read tail-first (newest-first), with
precisely the moderation-flagged items removed and — only when the
descriptor is the timeline — the preference-rejected items removed, as
one order-preserving filter of that snapshot; no other reordering
happens between the cache and the published vector. -/
theorem update_publishes_filtered_snapshot (moderator : Moderator)
    (fetched : List FeedViewPost) (descriptor : FeedDescriptor)
    (preferences : Preferences) (st : WatcherState) :
    (update (.ok moderator) (.ok fetched) descriptor preferences st).current
      = update_feeds fetched.reverse st.current
  ∧ (update (.ok moderator) (.ok fetched) descriptor preferences st).published
      = (((update (.ok moderator) (.ok fetched) descriptor preferences st).current.map
            (·.2)).reverse).filter
          (fun v => (!descriptor.isTimeline || filter_feed v (homePref preferences))
            && !(moderator v.post)) := by
  have hup : update (.ok moderator) (.ok fetched) descriptor preferences st
      = ⟨update_feeds fetched.reverse st.current,
         if descriptor.isTimeline then
           (((update_feeds fetched.reverse st.current).map (·.2)).reverse.filter
               (fun v => !(moderator v.post))).filter
             (fun v => filter_feed v (homePref preferences))
         else
           ((update_feeds fetched.reverse st.current).map (·.2)).reverse.filter
             (fun v => !(moderator v.post))⟩ := by
    unfold update
    rw [calculate_feed_ok_eq]
  refine ⟨by rw [hup], ?_⟩
  rw [hup]
  cases hd : descriptor.isTimeline with
  | false => simp [hd]
  | true => simp [hd, List.filter_filter]

/-- Claim C9: for a list descriptor the fetch returns the empty page
regardless of the remote endpoints (no remote call is consulted), and a
recompute from an empty cache keeps the cache empty and, whenever the
moderator construction succeeds, publishes the empty vector. -/
theorem list_descriptor_stays_empty (remote : Remote)
    (moderatorRes : Except FetchError Moderator) (preferences : Preferences)
    (st : WatcherState) (h : st.current = []) :
    get_feed remote .list = .ok []
  ∧ (update moderatorRes (get_feed remote .list) .list preferences st).current = []
  ∧ (∀ moderator, moderatorRes = .ok moderator →
      (update moderatorRes (get_feed remote .list) .list preferences st).published
        = []) := by
  refine ⟨rfl, ?_, ?_⟩
  · cases moderatorRes with
    | ok m => exact h
    | error e => exact h
  · intro moderator hm
    subst hm
    unfold update
    rw [show get_feed remote FeedDescriptor.list
        = (Except.ok [] : Except FetchError (List FeedViewPost)) from rfl,
      calculate_feed_ok_eq]
    simp [update_feeds, FeedDescriptor.isTimeline, h]

/-- Fixture remote whose feed and timeline endpoints would return a
nonempty page. -/
def stubRemote : Remote :=
  { getFeedPage := fun _ _ => .ok [testPost 0 none]
    getTimeline := fun _ => .ok [testPost 0 none] }

/-- Claim C9 witness: one recompute of a list watcher from the empty
cache, against a remote that would have returned items. -/
theorem list_descriptor_stays_empty_witness :
    (⟨[], []⟩ : WatcherState).current = []
  ∧ (update (.ok (fun _ => false)) (get_feed stubRemote .list) .list ⟨[]⟩
      ⟨[], []⟩).current = []
  ∧ (update (.ok (fun _ => false)) (get_feed stubRemote .list) .list ⟨[]⟩
      ⟨[], []⟩).published = [] :=
  ⟨rfl,
    (list_descriptor_stays_empty stubRemote (.ok (fun _ => false)) ⟨[]⟩ ⟨[], []⟩
      rfl).2.1,
    (list_descriptor_stays_empty stubRemote (.ok (fun _ => false)) ⟨[]⟩ ⟨[], []⟩
      rfl).2.2 (fun _ => false) rfl⟩

end Tuisky
